import Mathlib

/-!
Verification of the ccsniffer CC2531 sniffer module.

This file shallowly embeds the two core parts of `src/ccsniffer.py`:

* the frame decoder `CC2531.parse_packet` (lines 148-182), modelled as a
  pure function from a byte buffer (`List Nat`, each element a byte read
  from the USB bulk endpoint) to `Except Unit (Option Packet)`, where
  `.error ()` models a Python exception escaping the decoder (an
  `IndexError` from indexing a too-short buffer), `.ok none` models
  `return None`, and `.ok (some p)` models returning a `Packet`;

* the device-controller state machine (`__init__`, `start`, `stop`,
  `set_channel`), modelled as explicit state-passing functions on a
  record of the mutable attributes (`channel`, `running`, and the
  identity of the receiver thread), each returning the final state, the
  list of OUT control transfers issued during the call, and the raised
  exception if any (Python leaves mutations made before a raise in
  place, so the error case also carries a state);

* the unbounded power-status polling loop in `__init__` (lines 80-84),
  modelled with explicit fuel.
-/

namespace CCSniffer

/-- The record produced by `parse_packet` (class `Packet`, lines 194-203).
`timestamp` abstracts `time.gmtime()` as an opaque value supplied by the
caller of the model, since it is read from the environment. -/
structure Packet where
  timestamp : Nat
  channel : Int
  header : List Nat
  payload : List Nat
  rssi : Int
  crc_ok : Bool
  correlation : Nat
deriving DecidableEq, Repr

/-- `packet[3:7]` (line 156): the 4 opaque header bytes. Python slicing
clamps out-of-range bounds, which `drop`/`take` match. -/
def extractHeader (packet : List Nat) : List Nat :=
  (packet.drop 3).take 4

/-- `packet[8:-2]` (line 159): the payload bytes. The Python stop index
`-2` is `len - 2` clamped below at `0`, which truncated `Nat`
subtraction matches. -/
def extractPayload (packet : List Nat) : List Nat :=
  (packet.drop 8).take (packet.length - 2 - 8)

/-- Python indexing `packet[i]` on a byte buffer: raises `IndexError`
(modeled as `.error ()`) when the index is out of range. -/
def pyIndex (packet : List Nat) (i : Nat) : Except Unit Nat :=
  match (packet[i]? : Option Nat) with
  | none => .error ()
  | some v => .ok v

/-- `CC2531.parse_packet` (lines 148-182), with `self.channel` passed as
`channel` and the `time.gmtime()` call abstracted as `timestamp`.
Indexing a missing element (`packet[1]`, `packet[7]`, or unpacking
`packet[-2:]` into the two names `fcs1, fcs2`) raises in Python; an
escaping exception is `.error ()`. -/
def parse_packet (channel : Int) (timestamp : Nat) (packet : List Nat) :
    Except Unit (Option Packet) :=
  (pyIndex packet 1).bind fun packetlen =>
    if (packet.length : Int) - 3 ≠ (packetlen : Int) then .ok none
    else
      let header := extractHeader packet
      let payload := extractPayload packet
      (pyIndex packet 7).bind fun payloadlenField =>
        if (payload.length : Int) ≠ (payloadlenField : Int) - 2 then .ok none
        else
          (pyIndex packet (packet.length - 2)).bind fun fcs1 =>
            (pyIndex packet (packet.length - 1)).bind fun fcs2 =>
              .ok (some
                { timestamp := timestamp
                  channel := channel
                  header := header
                  payload := payload
                  rssi := ((fcs1 : Int) + 2 ^ 7) % 2 ^ 8 - 2 ^ 7 - 73
                  crc_ok := decide (0 < fcs2 &&& (1 <<< 7))
                  correlation := fcs2 &&& 0x7f })

/-- The spec's `signed8`: reinterpret an unsigned byte as a
two's-complement signed value, `((x + 128) mod 256) - 128`. -/
def signed8 (x : Nat) : Int :=
  ((x : Int) + 128) % 256 - 128

/-- One iteration of the receive loop body `CC2531.recv` (lines 114-121)
on one buffer read from the bulk endpoint: the buffer is decoded only
when its first byte is `0`; otherwise it is skipped with no decode
attempt (`.ok none`, nothing delivered to the callback). `ret[0]` on an
empty read would raise, hence `.error ()`. -/
def recvStep (channel : Int) (timestamp : Nat) (buf : List Nat) :
    Except Unit (Option Packet) :=
  (pyIndex buf 0).bind fun status =>
    if status = 0 then parse_packet channel timestamp buf
    else .ok none

/-- The canonical packet produced from an accepted buffer: each field
spelled out in terms of the buffer, as computed at lines 156-182. -/
def decodedPacket (channel : Int) (timestamp : Nat) (buf : List Nat) : Packet :=
  { timestamp := timestamp
    channel := channel
    header := extractHeader buf
    payload := extractPayload buf
    rssi := ((buf.getD (buf.length - 2) 0 : Int) + 2 ^ 7) % 2 ^ 8 - 2 ^ 7 - 73
    crc_ok := decide (0 < buf.getD (buf.length - 1) 0 &&& (1 <<< 7))
    correlation := buf.getD (buf.length - 1) 0 &&& 0x7f }

lemma ok_bind {ε α β : Type} (a : α) (f : α → Except ε β) :
    (Except.ok a : Except ε α).bind f = f a := rfl

lemma error_bind {ε α β : Type} (e : ε) (f : α → Except ε β) :
    (Except.error e : Except ε α).bind f = .error e := rfl

lemma pyIndex_ok_iff {l : List Nat} {i v : Nat} :
    pyIndex l i = .ok v ↔ l[i]? = some v := by
  unfold pyIndex
  rcases h : (l[i]? : Option Nat) with _ | w <;> simp

lemma pyIndex_of_lt {l : List Nat} {i : Nat} (h : i < l.length) :
    pyIndex l i = .ok (l.getD i 0) := by
  rw [pyIndex_ok_iff, List.getElem?_eq_getElem h, List.getD_eq_getElem?_getD,
    List.getElem?_eq_getElem h]
  rfl

lemma getD_of_getElem? {l : List Nat} {i v : Nat} (h : l[i]? = some v) :
    l.getD i 0 = v := by
  rw [List.getD_eq_getElem?_getD, h]
  rfl

lemma lt_length_of_getElem? {l : List Nat} {i v : Nat} (h : l[i]? = some v) :
    i < l.length :=
  (List.getElem?_eq_some.mp h).1

/-- Characterization of acceptance: a buffer whose two length checks
pass (and which is long enough that the decoder's four index accesses
succeed) decodes to the canonical packet. -/
lemma parse_packet_accept {buf : List Nat} (ch : Int) (t : Nat)
    (h8 : 8 ≤ buf.length)
    (h1 : (buf.length : Int) - 3 = (buf.getD 1 0 : Int))
    (h2 : ((extractPayload buf).length : Int) = (buf.getD 7 0 : Int) - 2) :
    parse_packet ch t buf = .ok (some (decodedPacket ch t buf)) := by
  unfold parse_packet
  rw [pyIndex_of_lt (show 1 < buf.length by omega),
    pyIndex_of_lt (show 7 < buf.length by omega),
    pyIndex_of_lt (show buf.length - 2 < buf.length by omega),
    pyIndex_of_lt (show buf.length - 1 < buf.length by omega)]
  simp only [ok_bind]
  rw [if_neg (by simp [h1]), if_neg (by simp [h2])]
  rfl

/-- Characterization of success: whenever `parse_packet` returns a
packet, the two length checks passed, the buffer holds at least the 8
fixed bytes, and the packet is the canonical one. -/
lemma parse_packet_ok_some {ch : Int} {t : Nat} {buf : List Nat} {p : Packet}
    (h : parse_packet ch t buf = .ok (some p)) :
    8 ≤ buf.length ∧
    (buf.length : Int) - 3 = (buf.getD 1 0 : Int) ∧
    ((extractPayload buf).length : Int) = (buf.getD 7 0 : Int) - 2 ∧
    p = decodedPacket ch t buf := by
  unfold parse_packet at h
  rcases e1 : pyIndex buf 1 with u | b1 <;> rw [e1] at h
  · rw [error_bind] at h
    simp at h
  rw [ok_bind] at h
  split at h
  · simp at h
  rcases e7 : pyIndex buf 7 with u | b7 <;> rw [e7] at h
  · rw [error_bind] at h
    simp at h
  rw [ok_bind] at h
  split at h
  · simp at h
  have h7lt : 7 < buf.length :=
    lt_length_of_getElem? (pyIndex_ok_iff.mp e7)
  have h8 : 8 ≤ buf.length := h7lt
  rw [pyIndex_of_lt (show buf.length - 2 < buf.length by omega),
    pyIndex_of_lt (show buf.length - 1 < buf.length by omega),
    ok_bind, ok_bind] at h
  simp only [Except.ok.injEq, Option.some.injEq] at h
  have hb1 : buf.getD 1 0 = b1 := getD_of_getElem? (pyIndex_ok_iff.mp e1)
  have hb7 : buf.getD 7 0 = b7 := getD_of_getElem? (pyIndex_ok_iff.mp e7)
  rename_i hc1 hc2
  refine ⟨h8, ?_, ?_, ?_⟩
  · rw [hb1]; omega
  · rw [hb7]
    omega
  · rw [← h]
    rfl

/-- A buffer too short even for its declared-length byte (`packet[1]`)
raises an `IndexError` (line 150). -/
lemma parse_packet_error_short {buf : List Nat} (ch : Int) (t : Nat)
    (h : buf.length < 2) : parse_packet ch t buf = .error () := by
  unfold parse_packet pyIndex
  rw [List.getElem?_eq_none (show buf.length ≤ 1 by omega)]
  rfl

/-- Declared length differing from total length minus 3 makes
`parse_packet` return `None` (lines 150-153). -/
lemma parse_packet_reject_len {buf : List Nat} (ch : Int) (t : Nat)
    (h2 : 2 ≤ buf.length)
    (hne : (buf.length : Int) - 3 ≠ (buf.getD 1 0 : Int)) :
    parse_packet ch t buf = .ok none := by
  unfold parse_packet
  rw [pyIndex_of_lt (show 1 < buf.length by omega), ok_bind, if_pos hne]

/-- A buffer that passes the first length check but is shorter than 8
bytes raises an `IndexError` at `packet[7]` (line 162). -/
lemma parse_packet_error_mid {buf : List Nat} (ch : Int) (t : Nat)
    (h1 : (buf.length : Int) - 3 = (buf.getD 1 0 : Int))
    (h8 : buf.length < 8) : parse_packet ch t buf = .error () := by
  have h3 : 3 ≤ buf.length := by
    have := Int.natCast_nonneg (buf.getD 1 0)
    omega
  unfold parse_packet
  rw [pyIndex_of_lt (show 1 < buf.length by omega), ok_bind,
    if_neg (by simp [h1])]
  unfold pyIndex
  rw [List.getElem?_eq_none (show buf.length ≤ 7 by omega)]
  rfl

/-- A payload-length field inconsistent with the extracted payload makes
`parse_packet` return `None` (lines 162-165). -/
lemma parse_packet_reject_payload {buf : List Nat} (ch : Int) (t : Nat)
    (h8 : 8 ≤ buf.length)
    (hne : ((extractPayload buf).length : Int) ≠ (buf.getD 7 0 : Int) - 2) :
    parse_packet ch t buf = .ok none := by
  by_cases h1 : (buf.length : Int) - 3 = (buf.getD 1 0 : Int)
  · unfold parse_packet
    rw [pyIndex_of_lt (show 1 < buf.length by omega),
      pyIndex_of_lt (show 7 < buf.length by omega)]
    simp only [ok_bind]
    rw [if_neg (by simp [h1]), if_pos hne]
  · exact parse_packet_reject_len ch t (by omega) h1

/-- The decoder never looks at the first byte of the buffer: replacing
it changes nothing about the decode result. -/
lemma parse_packet_cons (ch : Int) (t : Nat) (x y : Nat) (rest : List Nat) :
    parse_packet ch t (x :: rest) = parse_packet ch t (y :: rest) := by
  rcases Nat.lt_or_ge (x :: rest).length 2 with hshort | hlong
  · rw [parse_packet_error_short ch t hshort,
      @parse_packet_error_short (y :: rest) ch t hshort]
  by_cases hch1 : ((x :: rest).length : Int) - 3 = ((x :: rest).getD 1 0 : Int)
  · rcases Nat.lt_or_ge (x :: rest).length 8 with hmid | h8
    · rw [parse_packet_error_mid ch t hch1 hmid,
        @parse_packet_error_mid (y :: rest) ch t hch1 hmid]
    by_cases hch2 : ((extractPayload (x :: rest)).length : Int) =
        ((x :: rest).getD 7 0 : Int) - 2
    · rw [parse_packet_accept ch t h8 hch1 hch2,
        @parse_packet_accept (y :: rest) ch t h8 hch1 hch2]
      have h7 : 7 ≤ rest.length := by
        simp only [List.length_cons] at h8
        omega
      have hk : ∀ z : Nat, (z :: rest).length - 2 = (rest.length - 2) + 1 := by
        intro z
        simp only [List.length_cons]
        omega
      have hk1 : ∀ z : Nat, (z :: rest).length - 1 = (rest.length - 1) + 1 := by
        intro z
        simp only [List.length_cons]
        omega
      have hpkt : decodedPacket ch t (x :: rest) = decodedPacket ch t (y :: rest) := by
        unfold decodedPacket
        rw [hk x, hk y, hk1 x, hk1 y]
        simp only [List.getD_cons_succ]
        rfl
      rw [hpkt]
    · rw [parse_packet_reject_payload ch t h8 hch2,
        @parse_packet_reject_payload (y :: rest) ch t h8 hch2]
  · rw [parse_packet_reject_len ch t hlong hch1,
      @parse_packet_reject_len (y :: rest) ch t hlong hch1]

/-! ## The device-controller state machine

`CC2531.__init__`, `start`, `stop` and `set_channel` mutate three pieces
of state that matter to the control protocol: `self.channel`,
`self.running`, and `self.thread`. The thread attribute is modelled by
`threadGen`, a counter of how many `threading.Thread` objects have been
created and started: `0` means `self.thread is None` (as set at line
57), and each call of `start` replaces `self.thread` with a freshly
launched thread (lines 103-105), which increments the counter. Each
operation returns the final state, the list of OUT control transfers it
issued, and the exception it raised, if any; a Python exception leaves
every mutation made before the raise in place, so the error case also
reports a state. -/

/-- Exceptions raised by the controller operations. -/
inductive Err where
  /-- `ValueError` at line 143: channel outside 11-26. -/
  | invalidChannel
  /-- `AttributeError` at line 111: `self.thread.join()` with
  `self.thread = None`. -/
  | noThread
deriving DecidableEq, Repr

/-- OUT control transfers issued by the controller (request code and,
for `SET_CHAN`, the `wIndex` and the one data byte). -/
inductive Cmd where
  /-- `SET_POWER` (0xc5) with the given `wIndex` (4 = on, 0 = off). -/
  | setPower (idx : Nat)
  /-- `SET_START` (0xd0), line 102. -/
  | setStart
  /-- `SET_STOP` (0xd1), line 112. -/
  | setStop
  /-- `SET_CHAN` (0xd2) with `wIndex` `idx` and data byte `val`,
  lines 136-137. -/
  | setChan (idx : Nat) (val : Int)
deriving DecidableEq, Repr

/-- The mutable controller attributes relevant to the protocol. -/
structure CC where
  channel : Int
  running : Bool
  threadGen : Nat
deriving DecidableEq, Repr

/-- Outcome of one controller operation: final attribute state, OUT
control transfers issued during the call, raised exception if any. -/
structure OpResult where
  state : CC
  cmds : List Cmd
  err : Option Err
deriving DecidableEq, Repr

/-- `CC2531.start` (lines 99-105): set `running`, issue `SET_START`,
launch a fresh receiver thread. There is no already-running check. -/
def startOp (s : CC) : OpResult :=
  { state := { s with running := true, threadGen := s.threadGen + 1 }
    cmds := [Cmd.setStart]
    err := none }

/-- `CC2531.stop` (lines 108-112): clear `running`, join the thread,
then issue `SET_STOP`. If `self.thread` is still `None` the join raises
after `running` has already been cleared. -/
def stopOp (s : CC) : OpResult :=
  if s.threadGen = 0 then
    { state := { s with running := false }, cmds := [], err := some Err.noThread }
  else
    { state := { s with running := false }, cmds := [Cmd.setStop], err := none }

/-- `CC2531.set_channel` (lines 124-143): validate the range, stop if
running, store the channel, issue the two `SET_CHAN` transfers, restart
if it was running; out-of-range raises `ValueError` with nothing done. -/
def setChannelOp (s : CC) (channel : Int) : OpResult :=
  let wasRunning := s.running
  if 11 ≤ channel ∧ channel ≤ 26 then
    let stopRes := if s.running then stopOp s else { state := s, cmds := [], err := none }
    match stopRes.err with
    | some e => { state := stopRes.state, cmds := stopRes.cmds, err := some e }
    | none =>
      let s1 := { stopRes.state with channel := channel }
      let cmds1 := stopRes.cmds ++ [Cmd.setChan 0 channel, Cmd.setChan 1 0]
      if wasRunning then
        let startRes := startOp s1
        { state := startRes.state, cmds := cmds1 ++ startRes.cmds, err := startRes.err }
      else
        { state := s1, cmds := cmds1, err := none }
  else
    { state := s, cmds := [], err := some Err.invalidChannel }

/-- The attribute state right after lines 54-58 of `__init__`:
`self.channel = channel` is stored before any validation, `running` is
false, and no thread exists yet. -/
def initState (channel : Int) : CC :=
  { channel := channel, running := false, threadGen := 0 }

/-- `CC2531.__init__` (lines 52-89) as far as the modelled state goes:
store the attributes, power the radio on, then apply the initial
channel through `set_channel` (line 89). The USB discovery and the
power-status polling (lines 60-84) touch none of the modelled
attributes; the polling loop is modelled separately by `powerPoll`. -/
def initOp (channel : Int) : OpResult :=
  let r := setChannelOp (initState channel) channel
  { state := r.state, cmds := Cmd.setPower 4 :: r.cmds, err := r.err }

/-- The power-status polling loop of `__init__` (lines 80-84):
`statuses n` is byte 0 of the device's answer to the `n`-th `GET_POWER`
query; the loop breaks only when a query answers `4`. `fuel` bounds how
many iterations we observe; `some i` means the loop exited at iteration
`i`, `none` that it was still spinning after `fuel` iterations. -/
def powerPoll (statuses : Nat → Nat) (i : Nat) : Nat → Option Nat
  | 0 => none
  | fuel + 1 => if statuses i = 4 then some i else powerPoll statuses (i + 1) fuel

/-- The operations a caller can invoke on a constructed controller. -/
inductive Op where
  | start
  | stop
  | setChannel (channel : Int)

/-- Dispatch one caller operation. -/
def applyOp (s : CC) : Op → OpResult
  | .start => startOp s
  | .stop => stopOp s
  | .setChannel c => setChannelOp s c

/-- States of a successfully constructed controller after any sequence
of caller operations (including operations that raised: a per-call
failure leaves the object in the state the mutations reached). -/
inductive Reachable : CC → Prop
  | init (c : Int) (h : (initOp c).err = none) : Reachable (initOp c).state
  | step (s : CC) (op : Op) (h : Reachable s) : Reachable (applyOp s op).state

lemma setChannelOp_invalid {channel : Int} (s : CC)
    (h : ¬(11 ≤ channel ∧ channel ≤ 26)) :
    setChannelOp s channel = ⟨s, [], some Err.invalidChannel⟩ := by
  unfold setChannelOp
  rw [if_neg h]

lemma setChannelOp_idle {s : CC} {channel : Int} (hr : s.running = false)
    (hv : 11 ≤ channel ∧ channel ≤ 26) :
    setChannelOp s channel =
      ⟨⟨channel, false, s.threadGen⟩,
       [Cmd.setChan 0 channel, Cmd.setChan 1 0], none⟩ := by
  simp [setChannelOp, hr, hv]

lemma setChannelOp_running {s : CC} {channel : Int} (hr : s.running = true)
    (ht : s.threadGen ≠ 0) (hv : 11 ≤ channel ∧ channel ≤ 26) :
    setChannelOp s channel =
      ⟨⟨channel, true, s.threadGen + 1⟩,
       [Cmd.setStop, Cmd.setChan 0 channel, Cmd.setChan 1 0, Cmd.setStart],
       none⟩ := by
  simp [setChannelOp, stopOp, startOp, hr, ht, hv]

lemma setChannelOp_running_nothread {s : CC} {channel : Int}
    (hr : s.running = true) (ht : s.threadGen = 0)
    (hv : 11 ≤ channel ∧ channel ≤ 26) :
    setChannelOp s channel =
      ⟨⟨s.channel, false, 0⟩, [], some Err.noThread⟩ := by
  simp [setChannelOp, stopOp, hr, ht, hv]

lemma initOp_valid {channel : Int} (hv : 11 ≤ channel ∧ channel ≤ 26) :
    initOp channel =
      ⟨⟨channel, false, 0⟩,
       [Cmd.setPower 4, Cmd.setChan 0 channel, Cmd.setChan 1 0], none⟩ := by
  rw [initOp, @setChannelOp_idle (initState channel) channel rfl hv]
  rfl

lemma initOp_invalid {channel : Int} (h : ¬(11 ≤ channel ∧ channel ≤ 26)) :
    initOp channel =
      ⟨⟨channel, false, 0⟩, [Cmd.setPower 4], some Err.invalidChannel⟩ := by
  rw [initOp, setChannelOp_invalid (initState channel) h]
  rfl

/-- Controller invariant: on every reachable state the stored channel is
in range and a running controller has a live thread object. -/
lemma reachable_inv {s : CC} (h : Reachable s) :
    (11 ≤ s.channel ∧ s.channel ≤ 26) ∧
    (s.running = true → s.threadGen ≠ 0) := by
  induction h with
  | init c hc =>
      by_cases hv : 11 ≤ c ∧ c ≤ 26
      · rw [initOp_valid hv]
        exact ⟨hv, by simp⟩
      · rw [initOp_invalid hv] at hc
        simp at hc
  | step s op h ih =>
      cases op with
      | start =>
          simp only [applyOp, startOp]
          exact ⟨ih.1, by simp⟩
      | stop =>
          simp only [applyOp, stopOp]
          by_cases ht : s.threadGen = 0 <;> simp [ht] <;> exact ih.1
      | setChannel c =>
          by_cases hv : 11 ≤ c ∧ c ≤ 26
          · by_cases hr : s.running
            · by_cases ht : s.threadGen = 0
              · simp only [applyOp]
                rw [setChannelOp_running_nothread hr ht hv]
                exact ⟨ih.1, by simp⟩
              · simp only [applyOp]
                rw [setChannelOp_running hr ht hv]
                exact ⟨hv, by simp⟩
            · simp only [applyOp]
              rw [setChannelOp_idle (by simpa using hr) hv]
              exact ⟨hv, by simp⟩
          · simp only [applyOp]
            rw [setChannelOp_invalid s hv]
            exact ih

/-! ## The claims -/

/-- C1: for every buffer accepted by the frame decoder (both length
checks pass), the produced packet satisfies
`rssi = signed8 fcs1 - 73` where `fcs1` is the second-to-last byte,
`crc_ok` iff bit 7 of the last byte `fcs2` is nonzero, and
`correlation = fcs2 &&& 0x7F`; in particular `fcs1 = 0xD6` yields
`rssi = -115` and `fcs2 = 0x85` yields `crc_ok` and `correlation = 5`. -/
theorem c1_fcs_fields (ch : Int) (t : Nat) (buf : List Nat) (p : Packet)
    (h : parse_packet ch t buf = .ok (some p)) :
    p.rssi = signed8 (buf.getD (buf.length - 2) 0) - 73 ∧
    (p.crc_ok = true ↔ buf.getD (buf.length - 1) 0 &&& 0x80 ≠ 0) ∧
    p.correlation = buf.getD (buf.length - 1) 0 &&& 0x7f ∧
    signed8 0xD6 - 73 = -115 ∧
    (0x85 &&& 0x80 ≠ 0 ∧ 0x85 &&& 0x7f = 5) := by
  obtain ⟨h8, h1, h2, hp⟩ := parse_packet_ok_some h
  subst hp
  refine ⟨?_, ?_, rfl, by decide, by decide, by decide⟩
  · show ((buf.getD (buf.length - 2) 0 : Int) + 2 ^ 7) % 2 ^ 8 - 2 ^ 7 - 73 = _
    unfold signed8
    norm_num
  · show decide (0 < buf.getD (buf.length - 1) 0 &&& (1 <<< 7)) = true ↔ _
    rw [show (1 <<< 7 : Nat) = 0x80 from rfl]
    simp [Nat.pos_iff_ne_zero]

/-- Witness for C1 at the concrete buffer
`[0,10,0, 1,2,3,4, 5, 9,9,9, 0xD6,0x85]`. -/
theorem c1_fcs_fields_witness :
    (⟨0, 11, [1, 2, 3, 4], [9, 9, 9], -115, true, 5⟩ : Packet).rssi =
        signed8 214 - 73 ∧
    ((⟨0, 11, [1, 2, 3, 4], [9, 9, 9], -115, true, 5⟩ : Packet).crc_ok = true ↔
        133 &&& 0x80 ≠ 0) ∧
    (⟨0, 11, [1, 2, 3, 4], [9, 9, 9], -115, true, 5⟩ : Packet).correlation =
        133 &&& 0x7f ∧
    signed8 0xD6 - 73 = -115 ∧
    (0x85 &&& 0x80 ≠ 0 ∧ 0x85 &&& 0x7f = 5) :=
  c1_fcs_fields 11 0 [0, 10, 0, 1, 2, 3, 4, 5, 9, 9, 9, 214, 133]
    ⟨0, 11, [1, 2, 3, 4], [9, 9, 9], -115, true, 5⟩ (by rfl)

/-- C2: a buffer whose declared-length byte (byte 1) differs from its
total length minus 3, and a buffer whose payload-length field (byte 7)
minus 2 differs from the length of the extracted payload, both make the
decoder produce no packet (it returns `None`). -/
theorem c2_rejects_length_mismatch :
    (∀ (ch : Int) (t : Nat) (buf : List Nat), 2 ≤ buf.length →
      (buf.length : Int) - 3 ≠ (buf.getD 1 0 : Int) →
      parse_packet ch t buf = .ok none) ∧
    (∀ (ch : Int) (t : Nat) (buf : List Nat), 8 ≤ buf.length →
      ((extractPayload buf).length : Int) ≠ (buf.getD 7 0 : Int) - 2 →
      parse_packet ch t buf = .ok none) :=
  ⟨fun ch t _ h2 hne => parse_packet_reject_len ch t h2 hne,
   fun ch t _ h8 hne => parse_packet_reject_payload ch t h8 hne⟩

/-- Witness for C2: `[0,0]` fails the declared-length check;
`[0,5,0,0,0,0,0,0]` passes it but fails the payload-length check. -/
theorem c2_rejects_length_mismatch_witness :
    parse_packet 11 0 [0, 0] = .ok none ∧
    parse_packet 11 0 [0, 5, 0, 0, 0, 0, 0, 0] = .ok none :=
  ⟨c2_rejects_length_mismatch.1 11 0 [0, 0] (by decide) (by decide),
   c2_rejects_length_mismatch.2 11 0 [0, 5, 0, 0, 0, 0, 0, 0]
     (by decide) (by decide)⟩

/-- C3 counterexample: on the one-byte buffer `[0]` the decoder raises
(an `IndexError` at `packet[1]`, line 150) instead of returning a
packet or nothing, so it is not true that every buffer, including ones
too short for the fixed header, decodes without an error. -/
theorem c3_counterexample : parse_packet 11 0 [0] = .error () := rfl

/-- C3 amended: for every buffer of length at least 8 (long enough for
the fixed header bytes and the two status bytes), the decoder either
returns a packet or rejects by returning nothing; it never raises.
Shorter buffers can instead raise an index error. -/
theorem c3_no_error_on_long_buffers (ch : Int) (t : Nat) (buf : List Nat)
    (h8 : 8 ≤ buf.length) :
    ∃ r : Option Packet, parse_packet ch t buf = .ok r := by
  by_cases h1 : (buf.length : Int) - 3 = (buf.getD 1 0 : Int)
  · by_cases h2 : ((extractPayload buf).length : Int) = (buf.getD 7 0 : Int) - 2
    · exact ⟨_, parse_packet_accept ch t h8 h1 h2⟩
    · exact ⟨none, parse_packet_reject_payload ch t h8 h2⟩
  · exact ⟨none, parse_packet_reject_len ch t (by omega) h1⟩

/-- Witness for the amended C3 at the length-8 buffer of zeros. -/
theorem c3_no_error_on_long_buffers_witness :
    8 ≤ ([0, 0, 0, 0, 0, 0, 0, 0] : List Nat).length ∧
    ∃ r : Option Packet,
      parse_packet 11 0 [0, 0, 0, 0, 0, 0, 0, 0] = .ok r :=
  ⟨by decide, c3_no_error_on_long_buffers 11 0 _ (by decide)⟩

/-- C9: decoding the same accepted buffer twice with the same channel
yields packets equal in channel, header, payload, rssi, crc_ok and
correlation; only the timestamp (taken from the clock at decode time)
may differ. -/
theorem c9_decode_deterministic (ch : Int) (t1 t2 : Nat) (buf : List Nat)
    (p1 p2 : Packet)
    (h1 : parse_packet ch t1 buf = .ok (some p1))
    (h2 : parse_packet ch t2 buf = .ok (some p2)) :
    p1.channel = p2.channel ∧ p1.header = p2.header ∧
    p1.payload = p2.payload ∧ p1.rssi = p2.rssi ∧
    p1.crc_ok = p2.crc_ok ∧ p1.correlation = p2.correlation := by
  obtain ⟨-, -, -, e1⟩ := parse_packet_ok_some h1
  obtain ⟨-, -, -, e2⟩ := parse_packet_ok_some h2
  subst e1
  subst e2
  exact ⟨rfl, rfl, rfl, rfl, rfl, rfl⟩

/-- Witness for C9: the same buffer decoded at two timestamps. -/
theorem c9_decode_deterministic_witness :
    (⟨0, 11, [1, 2, 3, 4], [9, 9, 9], -115, true, 5⟩ : Packet).channel =
        (⟨1, 11, [1, 2, 3, 4], [9, 9, 9], -115, true, 5⟩ : Packet).channel ∧
    (⟨0, 11, [1, 2, 3, 4], [9, 9, 9], -115, true, 5⟩ : Packet).header =
        (⟨1, 11, [1, 2, 3, 4], [9, 9, 9], -115, true, 5⟩ : Packet).header ∧
    (⟨0, 11, [1, 2, 3, 4], [9, 9, 9], -115, true, 5⟩ : Packet).payload =
        (⟨1, 11, [1, 2, 3, 4], [9, 9, 9], -115, true, 5⟩ : Packet).payload ∧
    (⟨0, 11, [1, 2, 3, 4], [9, 9, 9], -115, true, 5⟩ : Packet).rssi =
        (⟨1, 11, [1, 2, 3, 4], [9, 9, 9], -115, true, 5⟩ : Packet).rssi ∧
    (⟨0, 11, [1, 2, 3, 4], [9, 9, 9], -115, true, 5⟩ : Packet).crc_ok =
        (⟨1, 11, [1, 2, 3, 4], [9, 9, 9], -115, true, 5⟩ : Packet).crc_ok ∧
    (⟨0, 11, [1, 2, 3, 4], [9, 9, 9], -115, true, 5⟩ : Packet).correlation =
        (⟨1, 11, [1, 2, 3, 4], [9, 9, 9], -115, true, 5⟩ : Packet).correlation :=
  c9_decode_deterministic 11 0 1 [0, 10, 0, 1, 2, 3, 4, 5, 9, 9, 9, 214, 133]
    ⟨0, 11, [1, 2, 3, 4], [9, 9, 9], -115, true, 5⟩
    ⟨1, 11, [1, 2, 3, 4], [9, 9, 9], -115, true, 5⟩ (by rfl) (by rfl)

/-- C10: the decoder never inspects the status byte: replacing byte 0
changes nothing about the result; any buffer whose two length checks
pass decodes to a packet with no condition on byte 0; and the
status-code filter lives in the receive loop, which skips a
nonzero-status buffer without any decode attempt. -/
theorem c10_status_byte_ignored_by_decoder :
    (∀ (ch : Int) (t : Nat) (x y : Nat) (rest : List Nat),
      parse_packet ch t (x :: rest) = parse_packet ch t (y :: rest)) ∧
    (∀ (ch : Int) (t : Nat) (buf : List Nat), 8 ≤ buf.length →
      (buf.length : Int) - 3 = (buf.getD 1 0 : Int) →
      ((extractPayload buf).length : Int) = (buf.getD 7 0 : Int) - 2 →
      parse_packet ch t buf = .ok (some (decodedPacket ch t buf))) ∧
    (∀ (ch : Int) (t : Nat) (status : Nat) (rest : List Nat), status ≠ 0 →
      recvStep ch t (status :: rest) = .ok none) := by
  refine ⟨parse_packet_cons, fun ch t buf h8 h1 h2 => parse_packet_accept ch t h8 h1 h2, ?_⟩
  intro ch t status rest hs
  unfold recvStep
  have h0 : pyIndex (status :: rest) 0 = .ok status := by
    rw [pyIndex_ok_iff]
    exact List.getElem?_cons_zero
  rw [h0, ok_bind, if_neg hs]

/-- Witness for C10: a nonzero status byte (7) on a buffer with
consistent lengths still decodes to a packet, and the same buffer is
skipped by the receive loop. -/
theorem c10_status_byte_ignored_by_decoder_witness :
    parse_packet 11 0 [7, 10, 0, 1, 2, 3, 4, 5, 9, 9, 9, 214, 133] =
      .ok (some (decodedPacket 11 0 [7, 10, 0, 1, 2, 3, 4, 5, 9, 9, 9, 214, 133])) ∧
    recvStep 11 0 [7, 10, 0, 1, 2, 3, 4, 5, 9, 9, 9, 214, 133] = .ok none :=
  ⟨c10_status_byte_ignored_by_decoder.2.1 11 0
      [7, 10, 0, 1, 2, 3, 4, 5, 9, 9, 9, 214, 133]
      (by decide) (by decide) (by decide),
   c10_status_byte_ignored_by_decoder.2.2 11 0 7
      [10, 0, 1, 2, 3, 4, 5, 9, 9, 9, 214, 133] (by decide)⟩

/-- C4: on a successfully constructed controller, after construction
and after every sequence of caller operations (including ones that
raised), the stored channel satisfies `11 ≤ channel ≤ 26`. -/
theorem c4_channel_in_range (s : CC) (h : Reachable s) :
    11 ≤ s.channel ∧ s.channel ≤ 26 :=
  (reachable_inv h).1

/-- Witness for C4: the state right after construction with channel 11. -/
theorem c4_channel_in_range_witness :
    11 ≤ (⟨11, false, 0⟩ : CC).channel ∧ (⟨11, false, 0⟩ : CC).channel ≤ 26 := by
  have h0 : Reachable (initOp 11).state := Reachable.init 11 (by decide)
  have e : (initOp 11).state = (⟨11, false, 0⟩ : CC) := by decide
  exact c4_channel_in_range _ (e ▸ h0)

/-- C5: `set_channel` with an in-range channel on a streaming
controller leaves it streaming, stores the new channel, and launches a
fresh receiver-loop thread (the thread counter increases); the two
channel-programming transfers sit strictly between `SET_STOP` and
`SET_START`, so the channel is programmed only while streaming is
stopped. -/
theorem c5_set_channel_while_streaming (s : CC) (c : Int) (h : Reachable s)
    (hr : s.running = true) (h11 : 11 ≤ c) (h26 : c ≤ 26) :
    setChannelOp s c =
      ⟨⟨c, true, s.threadGen + 1⟩,
       [Cmd.setStop, Cmd.setChan 0 c, Cmd.setChan 1 0, Cmd.setStart],
       none⟩ :=
  setChannelOp_running hr ((reachable_inv h).2 hr) ⟨h11, h26⟩

/-- Witness for C5: construct on channel 11, `start`, then
`set_channel 15`. -/
theorem c5_set_channel_while_streaming_witness :
    Reachable (⟨11, true, 1⟩ : CC) ∧
    setChannelOp ⟨11, true, 1⟩ 15 =
      ⟨⟨15, true, 2⟩,
       [Cmd.setStop, Cmd.setChan 0 15, Cmd.setChan 1 0, Cmd.setStart],
       none⟩ := by
  have h0 : Reachable (initOp 11).state := Reachable.init 11 (by decide)
  have h1 : Reachable (applyOp (initOp 11).state Op.start).state :=
    Reachable.step _ Op.start h0
  have e : (applyOp (initOp 11).state Op.start).state = (⟨11, true, 1⟩ : CC) := by
    decide
  have hr : Reachable (⟨11, true, 1⟩ : CC) := e ▸ h1
  exact ⟨hr, c5_set_channel_while_streaming _ 15 hr rfl (by decide) (by decide)⟩

/-- C6: `set_channel` with a channel below 11 or above 26 raises
`InvalidChannel` (the `ValueError` at line 143) and leaves the state
untouched: same channel, same running flag, and no control transfer is
issued during the call. -/
theorem c6_invalid_channel_rejected (s : CC) (c : Int)
    (h : c < 11 ∨ 26 < c) :
    setChannelOp s c = ⟨s, [], some Err.invalidChannel⟩ :=
  setChannelOp_invalid s (by omega)

/-- Witness for C6: `set_channel 27` on an idle controller. -/
theorem c6_invalid_channel_rejected_witness :
    setChannelOp ⟨11, false, 0⟩ 27 =
      ⟨⟨11, false, 0⟩, [], some Err.invalidChannel⟩ :=
  c6_invalid_channel_rejected ⟨11, false, 0⟩ 27 (Or.inr (by decide))

/-- C7 counterexample: `start` on a reachable, already-streaming
controller raises nothing at all (`err = none`), so the claim that it
fails with an `AlreadyStreaming` usage error is false: the code has no
such check (lines 99-105). -/
theorem c7_counterexample :
    Reachable (⟨11, true, 1⟩ : CC) ∧ (startOp ⟨11, true, 1⟩).err = none := by
  have h0 : Reachable (initOp 11).state := Reachable.init 11 (by decide)
  have h1 : Reachable (applyOp (initOp 11).state Op.start).state :=
    Reachable.step _ Op.start h0
  have e : (applyOp (initOp 11).state Op.start).state = (⟨11, true, 1⟩ : CC) := by
    decide
  exact ⟨e ▸ h1, rfl⟩

/-- C7 amended: calling `start` while the controller is already
streaming does not fail; it sets `running` to true again, issues
another start-streaming command, and launches an additional receiver
thread, replacing the stored thread reference. -/
theorem c7_start_while_running_no_error (s : CC) (_hr : s.running = true) :
    startOp s = ⟨⟨s.channel, true, s.threadGen + 1⟩, [Cmd.setStart], none⟩ :=
  rfl

/-- Witness for the amended C7 at the streaming state reached by
construction plus `start`. -/
theorem c7_start_while_running_no_error_witness :
    (⟨11, true, 1⟩ : CC).running = true ∧
    startOp ⟨11, true, 1⟩ = ⟨⟨11, true, 2⟩, [Cmd.setStart], none⟩ :=
  ⟨rfl, c7_start_while_running_no_error ⟨11, true, 1⟩ rfl⟩

/-- C8: the power-status polling loop of `__init__` (lines 80-84) has
no bound at all: against a device whose power-status query never
answers 4, the loop is still spinning after any number of iterations,
so construction never terminates and no `PowerOnTimeout` is ever
raised. This contradicts the claim (and matches the spec's own note
that the bounded timeout is a mandated improvement over this code). -/
theorem c8_power_poll_unbounded (i fuel : Nat) :
    powerPoll (fun _ => 0) i fuel = none := by
  induction fuel generalizing i with
  | zero => rfl
  | succ n ih => simp [powerPoll, ih]

end CCSniffer
